import Mathlib

/-!
Shallow embedding of `src/utils/calculator.js` from the n-d-chess repository.

JavaScript numbers are modelled as exact rationals (`ℚ`); every arithmetic
operation used by the calculator (small integer products, divisions that are
exact, `Math.pow` with integer exponent) is exact in IEEE doubles on the input
ranges the claims quantify over, so the rational model agrees with the
JavaScript semantics there.  Mode arguments are the literal strings the code
compares against (`"Classic"`, `"Hyper"`, `"Standard"`, `"Alternative"`).
-/

/-- JS `factorial(n)`: `if (n <= 1) return 1; return n * factorial(n - 1);`.
The argument is an arbitrary integer, exactly as in the source (the code calls
it with negative arguments through `combinatorial` when `k > n` or `k < 0`). -/
def factorial (n : ℤ) : ℤ :=
  if n ≤ 1 then 1 else n * factorial (n - 1)
termination_by n.toNat
decreasing_by
  simp_wf
  omega

/-- JS `combinatorial(n, k)`: `factorial(n) / (factorial(k) * factorial(n - k))`.
Floating-point division is modelled as exact rational division. -/
def combinatorial (n k : ℤ) : ℚ :=
  (factorial n : ℚ) / ((factorial k : ℚ) * (factorial (n - k) : ℚ))

/-- JS `calculateKnightAttacks(dimension, knightMode, sideLength)`. -/
def calculateKnightAttacks (dimension : ℤ) (knightMode : String) (sideLength : ℤ) : ℚ :=
  if knightMode = "Standard" then
    4 * (dimension : ℚ) * ((dimension : ℚ) - 1)
  else
    ((dimension : ℚ) * ((dimension : ℚ) - 1) / 2) * 8 +
      (if dimension ≥ 3 then
        ((dimension : ℚ) * ((dimension : ℚ) - 1) * ((dimension : ℚ) - 2) / 6) * 8
      else 0)

/-- JS `calculateKnightAttacks.getFormula(knightMode)`. -/
def calculateKnightAttacks.getFormula (knightMode : String) : String :=
  if knightMode = "Standard" then "4d(d-1)" else "8(C(d,2)+C(d,3))"

/-- JS `calculateRookAttacks(dimension, sideLength)`. -/
def calculateRookAttacks (dimension sideLength : ℤ) : ℚ :=
  (dimension : ℚ) * ((sideLength : ℚ) - 1)

/-- JS `calculateRookAttacks.getFormula()`. -/
def calculateRookAttacks.getFormula : String := "d(l-1)"

/-- JS `calculateBishopAttacks(dimension, diagonalMode, sideLength)`.  The
`Hyper` branch is the loop `for (let r = 2; r <= dimension; r++)` accumulating
`combinatorial(dimension, r) * (3 * Math.pow(2, r) + 1)`; the side length is
not read in that branch. -/
def calculateBishopAttacks (dimension : ℤ) (diagonalMode : String) (sideLength : ℤ) : ℚ :=
  if diagonalMode = "Classic" then
    combinatorial dimension 2 * (2 * (sideLength : ℚ) - 3)
  else
    ∑ r in Finset.Icc (2 : ℤ) dimension, combinatorial dimension r * (3 * (2 : ℚ) ^ r + 1)

/-- JS `calculateBishopAttacks.getFormula(diagonalMode)`. -/
def calculateBishopAttacks.getFormula (diagonalMode : String) : String :=
  if diagonalMode = "Classic" then "(d choose 2)(2l-3)" else "sum(r=2 to d)[C(d, r)(3*2^r+1)]"

/-- JS `calculateQueenAttacks(dimension, diagonalMode, sideLength)`:
rook attacks plus bishop attacks. -/
def calculateQueenAttacks (dimension : ℤ) (diagonalMode : String) (sideLength : ℤ) : ℚ :=
  calculateRookAttacks dimension sideLength +
    calculateBishopAttacks dimension diagonalMode sideLength

/-- JS `calculateQueenAttacks.getFormula(diagonalMode)`. -/
def calculateQueenAttacks.getFormula (diagonalMode : String) : String :=
  calculateRookAttacks.getFormula ++ " + " ++ calculateBishopAttacks.getFormula diagonalMode

/-- JS `calculateKingAttacks(dimension, sideLength)`: `Math.pow(3, dimension) - 1`;
the side length parameter is not read. -/
def calculateKingAttacks (dimension sideLength : ℤ) : ℚ :=
  (3 : ℚ) ^ dimension - 1

/-- JS `calculateKingAttacks.getFormula()`. -/
def calculateKingAttacks.getFormula : String := "3^d - 1"

/-- JS `calculatePawnAttacks(dimension, diagonalMode, sideLength)`; the side
length parameter is not read in either branch. -/
def calculatePawnAttacks (dimension : ℤ) (diagonalMode : String) (sideLength : ℤ) : ℚ :=
  if diagonalMode = "Classic" then 2 * (dimension : ℚ) - 2
  else (3 : ℚ) ^ (dimension - 1) - 1

/-- JS `calculatePawnAttacks.getFormula(diagonalMode)`. -/
def calculatePawnAttacks.getFormula (diagonalMode : String) : String :=
  if diagonalMode = "Classic" then "2d-2" else "3^(d-1) - 1"

/-- The record returned by `getPieceInfo`: a calculator bound to the given
configuration and a formula string. -/
structure PieceInfo where
  calculate : ℤ → ℚ
  formula : String

/-- The property names an object literal inherits from `Object.prototype`.
For these strings `pieces[pieceName]` is a truthy inherited function (or, for
`__proto__` and `constructor`, an object), so `pieces[pieceName] || null`
returns that value rather than `null`. -/
def objectPrototypeKeys : List String :=
  ["constructor", "hasOwnProperty", "isPrototypeOf", "propertyIsEnumerable",
    "toLocaleString", "toString", "valueOf", "__defineGetter__",
    "__defineSetter__", "__lookupGetter__", "__lookupSetter__", "__proto__"]

/-- The value `getPieceInfo` can produce: one of the six piece records, a
truthy value inherited from `Object.prototype` (tagged with the property name
that was looked up; the concrete function object carries no further meaning
for the claims), or JS `null`. -/
inductive JSValue where
  | piece : PieceInfo → JSValue
  | inherited : String → JSValue
  | null : JSValue

/-- JS `getPieceInfo(pieceName, diagonalMode, knightMode, sideLength)`:
`return pieces[pieceName] || null` where `pieces` is an object literal with
the six piece keys.  JS property lookup falls through to the prototype chain,
so the six own keys yield their records, the `Object.prototype` property
names yield a truthy inherited value, and only every other string yields
`undefined`, which `|| null` turns into `null`. -/
def getPieceInfo (pieceName diagonalMode knightMode : String) (sideLength : ℤ) :
    JSValue :=
  if pieceName = "Knight" then
    .piece ⟨fun dimension => calculateKnightAttacks dimension knightMode sideLength,
      calculateKnightAttacks.getFormula knightMode⟩
  else if pieceName = "Rook" then
    .piece ⟨fun dimension => calculateRookAttacks dimension sideLength,
      calculateRookAttacks.getFormula⟩
  else if pieceName = "Bishop" then
    .piece ⟨fun dimension => calculateBishopAttacks dimension diagonalMode sideLength,
      calculateBishopAttacks.getFormula diagonalMode⟩
  else if pieceName = "Queen" then
    .piece ⟨fun dimension => calculateQueenAttacks dimension diagonalMode sideLength,
      calculateQueenAttacks.getFormula diagonalMode⟩
  else if pieceName = "King" then
    .piece ⟨fun dimension => calculateKingAttacks dimension sideLength,
      calculateKingAttacks.getFormula⟩
  else if pieceName = "Pawn" then
    .piece ⟨fun dimension => calculatePawnAttacks dimension diagonalMode sideLength,
      calculatePawnAttacks.getFormula diagonalMode⟩
  else if pieceName ∈ objectPrototypeKeys then
    .inherited pieceName
  else .null

/-! ### Basic facts about the factorial and binomial helpers -/

/-- On natural-number arguments the JS `factorial` agrees with `Nat.factorial`. -/
theorem factorial_natCast (n : ℕ) : factorial (n : ℤ) = (Nat.factorial n : ℤ) := by
  induction n with
  | zero =>
    rw [factorial]
    norm_num
  | succ m ih =>
    rcases Nat.eq_zero_or_pos m with hm | hm
    · subst hm
      rw [factorial]
      norm_num
    · rw [factorial]
      have h1 : ¬ ((m : ℤ) + 1 ≤ 1) := by omega
      have h2 : ((m : ℤ) + 1) - 1 = (m : ℤ) := by ring
      simp only [Nat.cast_succ, h1, if_false, h2, ih]
      push_cast [Nat.factorial_succ]
      ring

/-- The JS `factorial` is positive on every integer argument. -/
theorem factorial_pos (n : ℤ) : 0 < factorial n := by
  by_cases h : n ≤ 1
  · rw [factorial]
    simp [h]
  · have hn : n = ((n.toNat : ℕ) : ℤ) := by omega
    rw [hn, factorial_natCast]
    exact_mod_cast Nat.factorial_pos n.toNat

/-- For `0 ≤ k ≤ n` the JS `combinatorial` computes the exact binomial
coefficient. -/
theorem combinatorial_eq_choose (n k : ℕ) (h : k ≤ n) :
    combinatorial (n : ℤ) (k : ℤ) = (Nat.choose n k : ℚ) := by
  unfold combinatorial
  have hnk : (n : ℤ) - (k : ℤ) = ((n - k : ℕ) : ℤ) := by omega
  rw [hnk, factorial_natCast, factorial_natCast, factorial_natCast]
  rw [Nat.cast_choose ℚ h]
  push_cast
  ring

/-- `factorial` returns `1` on every argument `≤ 1`, including negatives
(base case of the JS recursion). -/
theorem factorial_of_le_one {n : ℤ} (h : n ≤ 1) : factorial n = 1 := by
  rw [factorial]
  simp [h]

theorem factorial_two_eq : factorial 2 = 2 := by
  have h : ((2 : ℕ) : ℤ) = 2 := by norm_num
  rw [← h, factorial_natCast]
  decide

theorem factorial_three_eq : factorial 3 = 6 := by
  have h : ((3 : ℕ) : ℤ) = 3 := by norm_num
  rw [← h, factorial_natCast]
  decide

theorem factorial_four_eq : factorial 4 = 24 := by
  have h : ((4 : ℕ) : ℤ) = 4 := by norm_num
  rw [← h, factorial_natCast]
  decide

/-- The JS `combinatorial` is strictly positive on every pair of integer
arguments, because every factorial it divides by is positive. -/
theorem combinatorial_pos (n k : ℤ) : 0 < combinatorial n k := by
  unfold combinatorial
  have h1 := factorial_pos n
  have h2 := factorial_pos k
  have h3 := factorial_pos (n - k)
  positivity

/-- The integer interval `[2, d]` is the image of the natural interval. -/
theorem Icc_two_int_eq_map (d : ℕ) :
    Finset.Icc (2 : ℤ) (d : ℤ) = (Finset.Icc 2 d).map Nat.castEmbedding := by
  ext x
  simp only [Finset.mem_Icc, Finset.mem_map, Nat.castEmbedding_apply]
  constructor
  · intro hx
    exact ⟨x.toNat, by omega, by omega⟩
  · rintro ⟨m, hm, rfl⟩
    omega

/-- The Hyper branch of `calculateBishopAttacks` is the binomial-weighted sum
`Σ r in [2, d], C(d, r) * (3 * 2^r + 1)`; the side length is never read. -/
theorem bishopHyper_eq_sum (d : ℕ) (l : ℤ) :
    calculateBishopAttacks (d : ℤ) "Hyper" l =
      ∑ r in Finset.Icc 2 d, (Nat.choose d r : ℚ) * (3 * (2 : ℚ) ^ r + 1) := by
  unfold calculateBishopAttacks
  rw [if_neg (by decide : ¬ ("Hyper" = "Classic"))]
  rw [Icc_two_int_eq_map, Finset.sum_map]
  apply Finset.sum_congr rfl
  intro r hr
  simp only [Nat.castEmbedding_apply]
  rw [combinatorial_eq_choose d r (Finset.mem_Icc.mp hr).2, zpow_natCast]

/-- Cast form of `C(d, 3)` as a rational polynomial in `d`. -/
theorem cast_choose_three (d : ℕ) :
    (Nat.choose d 3 : ℚ) = (d : ℚ) * ((d : ℚ) - 1) * ((d : ℚ) - 2) / 6 := by
  induction d with
  | zero => norm_num
  | succ m ih =>
    rw [Nat.choose_succ_succ' m 2]
    push_cast [ih, Nat.cast_choose_two]
    ring

/-- The Alternative branch of `calculateKnightAttacks` equals
`8 * (C(d, 2) + C(d, 3))` for every dimension and side length. -/
theorem knightAlternative_eq (d : ℕ) (l : ℤ) :
    calculateKnightAttacks (d : ℤ) "Alternative" l =
      8 * ((Nat.choose d 2 : ℚ) + (Nat.choose d 3 : ℚ)) := by
  unfold calculateKnightAttacks
  rw [if_neg (by decide : ¬ ("Alternative" = "Standard"))]
  by_cases hd : (3 : ℤ) ≤ (d : ℤ)
  · rw [if_pos hd, Nat.cast_choose_two, cast_choose_three]
    push_cast
    ring
  · rw [if_neg hd]
    have hd3 : d < 3 := by omega
    rw [Nat.choose_eq_zero_of_lt hd3, Nat.cast_choose_two]
    push_cast
    ring

/-! ### Claim theorems -/

/-- C1 (counterexample): the spec's piecewise Classic-bishop formula predicts
`bishopAttacks(4, Classic, 5) = 48`, but the code computes
`C(4,2) * (2*5 - 3) = 42` — there is no parity branch. -/
theorem bishopClassic_claim_false :
    calculateBishopAttacks 4 "Classic" 5 = 42 ∧ calculateBishopAttacks 4 "Classic" 5 ≠ 48 := by
  have h : calculateBishopAttacks 4 "Classic" 5 = 42 := by
    unfold calculateBishopAttacks combinatorial
    rw [if_pos rfl]
    norm_num [factorial_four_eq, factorial_two_eq]
  exact ⟨h, by rw [h]; norm_num⟩

/-- C1 (amended): for every `d ≥ 2` and every side length, the Classic bishop
count is `C(d,2) * (2l - 3)` — with no `l < 2`, `l = 2` or parity cases; in
particular `bishopAttacks(4, Classic, 5) = 42`. -/
theorem bishopClassic_eq (d l : ℕ) (hd : 2 ≤ d) :
    calculateBishopAttacks (d : ℤ) "Classic" (l : ℤ) =
      (Nat.choose d 2 : ℚ) * (2 * (l : ℚ) - 3) := by
  unfold calculateBishopAttacks
  rw [if_pos rfl]
  have h2 : ((2 : ℕ) : ℤ) = (2 : ℤ) := by norm_num
  rw [← h2, combinatorial_eq_choose d 2 hd]
  push_cast
  ring

/-- Witness for C1 (amended) at `d = 4`, `l = 5`. -/
theorem bishopClassic_eq_witness :
    2 ≤ 4 ∧ calculateBishopAttacks ((4 : ℕ) : ℤ) "Classic" ((5 : ℕ) : ℤ) =
      (Nat.choose 4 2 : ℚ) * (2 * ((5 : ℕ) : ℚ) - 3) :=
  ⟨by norm_num, bishopClassic_eq 4 5 (by norm_num)⟩

/-- C2 (counterexample): the spec predicts `kingAttacks(4, 2) = min(2,3)^4 - 1
= 15`, but the code computes `3^4 - 1 = 80` — the side length is ignored. -/
theorem kingAttacks_claim_false :
    calculateKingAttacks 4 2 = 80 ∧ calculateKingAttacks 4 2 ≠ 15 := by
  have h : calculateKingAttacks 4 2 = 80 := by
    unfold calculateKingAttacks
    rw [(by norm_num : (4 : ℤ) = ((4 : ℕ) : ℤ)), zpow_natCast]
    norm_num
  exact ⟨h, by rw [h]; norm_num⟩

/-- C2 (amended): for every dimension and every side length the king count is
`3^d - 1`, independent of the side length; in particular
`kingAttacks(4, 2) = 80`. -/
theorem kingAttacks_eq (d : ℕ) (l : ℤ) :
    calculateKingAttacks (d : ℤ) l = (3 : ℚ) ^ d - 1 ∧ calculateKingAttacks 4 2 = 80 := by
  constructor
  · unfold calculateKingAttacks
    rw [zpow_natCast]
  · unfold calculateKingAttacks
    rw [(by norm_num : (4 : ℤ) = ((4 : ℕ) : ℤ)), zpow_natCast]
    norm_num

/-- C3 (counterexample): the spec predicts `knightAttacks(3, Standard, 4) = 6`
and `knightAttacks(3, Alternative, 2) = 1`, but the code computes `24` and
`32` — it has no side-length branches. -/
theorem knightAttacks_claim_false :
    calculateKnightAttacks 3 "Standard" 4 = 24 ∧ calculateKnightAttacks 3 "Standard" 4 ≠ 6 ∧
      calculateKnightAttacks 3 "Alternative" 2 = 32 ∧
      calculateKnightAttacks 3 "Alternative" 2 ≠ 1 := by
  have h1 : calculateKnightAttacks 3 "Standard" 4 = 24 := by
    unfold calculateKnightAttacks
    rw [if_pos rfl]
    norm_num
  have h2 : calculateKnightAttacks 3 "Alternative" 2 = 32 := by
    unfold calculateKnightAttacks
    rw [if_neg (by decide : ¬ ("Alternative" = "Standard")),
      if_pos (by norm_num : (3 : ℤ) ≥ 3)]
    norm_num
  exact ⟨h1, by rw [h1]; norm_num, h2, by rw [h2]; norm_num⟩

/-- C3 (amended): the knight count ignores the side length entirely:
Standard mode always returns `4d(d-1)` and Alternative mode always returns
`8(C(d,2) + C(d,3))`; in particular `knightAttacks(3, Standard, 4) = 24` and
`knightAttacks(3, Alternative, 2) = 32`. -/
theorem knightAttacks_eq (d l : ℕ) :
    calculateKnightAttacks (d : ℤ) "Standard" (l : ℤ) = 4 * (d : ℚ) * ((d : ℚ) - 1) ∧
      calculateKnightAttacks (d : ℤ) "Alternative" (l : ℤ) =
        8 * ((Nat.choose d 2 : ℚ) + (Nat.choose d 3 : ℚ)) := by
  constructor
  · unfold calculateKnightAttacks
    rw [if_pos rfl]
    push_cast
    ring
  · exact knightAlternative_eq d (l : ℤ)

/-- C4 (counterexample): the spec predicts `bishopAttacks(d, Hyper, l) = 0`
for `l < 2` and a side-length-dependent sum otherwise, but the code computes
`13` at `d = 2, l = 1` (the Hyper branch never reads the side length). -/
theorem bishopHyper_claim_false :
    calculateBishopAttacks 2 "Hyper" 1 = 13 ∧ calculateBishopAttacks 2 "Hyper" 1 ≠ 0 := by
  have h : calculateBishopAttacks 2 "Hyper" 1 = 13 := by
    have h2 : ((2 : ℕ) : ℤ) = (2 : ℤ) := by norm_num
    have hs := bishopHyper_eq_sum 2 1
    rw [h2] at hs
    rw [hs, Finset.Icc_self, Finset.sum_singleton]
    norm_num
  exact ⟨h, by rw [h]; norm_num⟩

/-- C4 (amended): for every dimension and every side length the Hyper bishop
count is `Σ r in [2, d], C(d,r) * (3 * 2^r + 1)` — no `l < 2` case and no
dependence on the side length or its parity. -/
theorem bishopHyper_formula (d : ℕ) (l : ℤ) :
    calculateBishopAttacks (d : ℤ) "Hyper" l =
      ∑ r in Finset.Icc 2 d, (Nat.choose d r : ℚ) * (3 * (2 : ℚ) ^ r + 1) :=
  bishopHyper_eq_sum d l

/-- C5 (counterexample): the spec predicts `pawnAttacks(2, Classic, 2) =
(2-1) * min(1, 2) = 1`, but the code computes `2*2 - 2 = 2` — neither pawn
branch reads the side length. -/
theorem pawnAttacks_claim_false :
    calculatePawnAttacks 2 "Classic" 2 = 2 ∧ calculatePawnAttacks 2 "Classic" 2 ≠ 1 := by
  have h : calculatePawnAttacks 2 "Classic" 2 = 2 := by
    unfold calculatePawnAttacks
    rw [if_pos rfl]
    norm_num
  exact ⟨h, by rw [h]; norm_num⟩

/-- C5 (amended): for every `d ≥ 1` and every side length the pawn count is
`2d - 2` in Classic mode and `3^(d-1) - 1` in Hyper mode, with no `min(l-1,2)`
or `min(l,3)` truncation; `pawnAttacks(3, Hyper, 8) = 8` does hold. -/
theorem pawnAttacks_eq (d l : ℕ) (hd : 1 ≤ d) :
    calculatePawnAttacks (d : ℤ) "Classic" (l : ℤ) = 2 * (d : ℚ) - 2 ∧
      calculatePawnAttacks (d : ℤ) "Hyper" (l : ℤ) = (3 : ℚ) ^ (d - 1) - 1 ∧
      calculatePawnAttacks 3 "Hyper" 8 = 8 := by
  refine ⟨?_, ?_, ?_⟩
  · unfold calculatePawnAttacks
    rw [if_pos rfl]
    push_cast
    ring
  · unfold calculatePawnAttacks
    rw [if_neg (by decide : ¬ ("Hyper" = "Classic"))]
    have h1 : (d : ℤ) - 1 = ((d - 1 : ℕ) : ℤ) := by omega
    rw [h1, zpow_natCast]
  · unfold calculatePawnAttacks
    rw [if_neg (by decide : ¬ ("Hyper" = "Classic")),
      (by norm_num : (3 : ℤ) - 1 = ((2 : ℕ) : ℤ)), zpow_natCast]
    norm_num

/-- Witness for C5 (amended) at `d = 3`, `l = 8`. -/
theorem pawnAttacks_eq_witness :
    1 ≤ 3 ∧ (calculatePawnAttacks ((3 : ℕ) : ℤ) "Classic" ((8 : ℕ) : ℤ) =
        2 * ((3 : ℕ) : ℚ) - 2 ∧
      calculatePawnAttacks ((3 : ℕ) : ℤ) "Hyper" ((8 : ℕ) : ℤ) = (3 : ℚ) ^ (3 - 1) - 1 ∧
      calculatePawnAttacks 3 "Hyper" 8 = 8) :=
  ⟨by norm_num, pawnAttacks_eq 3 8 (by norm_num)⟩

/-- C6 (counterexample): the spec requires `binomial(n, k) = 0` for `k > n`,
but the code computes `factorial(2) / (factorial(3) * factorial(-1)) =
2 / (6 * 1) = 1/3` at `n = 2, k = 3` — there is no `k > n` guard. -/
theorem combinatorial_claim_false :
    combinatorial 2 3 = 1 / 3 ∧ combinatorial 2 3 ≠ 0 := by
  have h : combinatorial 2 3 = 1 / 3 := by
    unfold combinatorial
    rw [factorial_two_eq, factorial_three_eq, (by norm_num : (2 : ℤ) - 3 = -1),
      factorial_of_le_one (by norm_num : (-1 : ℤ) ≤ 1)]
    norm_num
  exact ⟨h, by rw [h]; norm_num⟩

/-- C6 (amended): `combinatorial` divides naively computed factorials.  For
`0 ≤ k ≤ n` this yields the exact binomial coefficient, but for `k > n` and
for `k < 0` the result is a nonzero rational (the factorial of a negative
number is 1), not the required 0. -/
theorem combinatorial_eq (n k : ℕ) :
    (k ≤ n → combinatorial (n : ℤ) (k : ℤ) = (Nat.choose n k : ℚ)) ∧
      (n < k → combinatorial (n : ℤ) (k : ℤ) ≠ 0) ∧
      combinatorial (n : ℤ) (-(k : ℤ) - 1) ≠ 0 := by
  exact ⟨fun h => combinatorial_eq_choose n k h,
    fun _ => (combinatorial_pos (n : ℤ) (k : ℤ)).ne',
    (combinatorial_pos (n : ℤ) (-(k : ℤ) - 1)).ne'⟩

/-- Witness for C6 (amended) at `n = 4`, `k = 2`. -/
theorem combinatorial_eq_witness :
    ((2 : ℕ) ≤ 4 → combinatorial ((4 : ℕ) : ℤ) ((2 : ℕ) : ℤ) = (Nat.choose 4 2 : ℚ)) ∧
      ((4 : ℕ) < 2 → combinatorial ((4 : ℕ) : ℤ) ((2 : ℕ) : ℤ) ≠ 0) ∧
      combinatorial ((4 : ℕ) : ℤ) (-((2 : ℕ) : ℤ) - 1) ≠ 0 :=
  combinatorial_eq 4 2

/-- C7 (counterexample): non-negativity fails on the claimed grid: at
`d = 2, l = 1` the Classic bishop count is `C(2,2) * (2*1 - 3) = -1`. -/
theorem nonneg_claim_false :
    calculateBishopAttacks 2 "Classic" 1 = -1 ∧ calculateBishopAttacks 2 "Classic" 1 < 0 := by
  have h : calculateBishopAttacks 2 "Classic" 1 = -1 := by
    unfold calculateBishopAttacks combinatorial
    rw [if_pos rfl, factorial_two_eq, (by norm_num : (2 : ℤ) - 2 = 0),
      factorial_of_le_one (by norm_num : (0 : ℤ) ≤ 1)]
    norm_num
  exact ⟨h, by rw [h]; norm_num⟩

/-- C7 (amended): for `d ≤ 10` and `1 ≤ l ≤ 12` every attack count is
non-negative except the exceptions the code actually produces: the Classic
bishop and Classic queen need `l ≥ 2` (at `l = 1` they are negative), and the
pawn needs `d ≥ 1` (at `d = 0` both pawn modes are negative). -/
theorem attacks_nonneg (d l : ℕ) (hd : d ≤ 10) (hl1 : 1 ≤ l) (hl2 : l ≤ 12) :
    0 ≤ calculateKnightAttacks (d : ℤ) "Standard" (l : ℤ) ∧
      0 ≤ calculateKnightAttacks (d : ℤ) "Alternative" (l : ℤ) ∧
      0 ≤ calculateRookAttacks (d : ℤ) (l : ℤ) ∧
      0 ≤ calculateBishopAttacks (d : ℤ) "Hyper" (l : ℤ) ∧
      0 ≤ calculateQueenAttacks (d : ℤ) "Hyper" (l : ℤ) ∧
      0 ≤ calculateKingAttacks (d : ℤ) (l : ℤ) ∧
      (2 ≤ l → 0 ≤ calculateBishopAttacks (d : ℤ) "Classic" (l : ℤ) ∧
        0 ≤ calculateQueenAttacks (d : ℤ) "Classic" (l : ℤ)) ∧
      (1 ≤ d → 0 ≤ calculatePawnAttacks (d : ℤ) "Classic" (l : ℤ) ∧
        0 ≤ calculatePawnAttacks (d : ℤ) "Hyper" (l : ℤ)) := by
  have hl1Q : (1 : ℚ) ≤ (l : ℚ) := by exact_mod_cast hl1
  have hrook : 0 ≤ calculateRookAttacks (d : ℤ) (l : ℤ) := by
    unfold calculateRookAttacks
    push_cast
    have : (0 : ℚ) ≤ (d : ℚ) := by positivity
    nlinarith
  have hbishH : 0 ≤ calculateBishopAttacks (d : ℤ) "Hyper" (l : ℤ) := by
    rw [bishopHyper_eq_sum d (l : ℤ)]
    apply Finset.sum_nonneg
    intro r _
    positivity
  have hbishC : 2 ≤ l → 0 ≤ calculateBishopAttacks (d : ℤ) "Classic" (l : ℤ) := by
    intro hl
    unfold calculateBishopAttacks
    rw [if_pos rfl]
    apply mul_nonneg (combinatorial_pos _ _).le
    have : (2 : ℚ) ≤ (l : ℚ) := by exact_mod_cast hl
    push_cast
    linarith
  refine ⟨?_, ?_, hrook, hbishH, ?_, ?_, fun hl => ⟨hbishC hl, ?_⟩, fun hd1 => ⟨?_, ?_⟩⟩
  · unfold calculateKnightAttacks
    rw [if_pos rfl]
    rcases Nat.eq_zero_or_pos d with h0 | h1
    · subst h0
      norm_num
    · have h1Q : (1 : ℚ) ≤ (d : ℚ) := by exact_mod_cast h1
      push_cast
      nlinarith
  · rw [knightAlternative_eq d (l : ℤ)]
    positivity
  · unfold calculateQueenAttacks
    exact add_nonneg hrook hbishH
  · unfold calculateKingAttacks
    have h1 : (1 : ℚ) ≤ (3 : ℚ) ^ (d : ℤ) := one_le_zpow₀ (by norm_num) (by positivity)
    linarith
  · unfold calculateQueenAttacks
    exact add_nonneg hrook (hbishC hl)
  · unfold calculatePawnAttacks
    rw [if_pos rfl]
    have h1Q : (1 : ℚ) ≤ (d : ℚ) := by exact_mod_cast hd1
    push_cast
    linarith
  · unfold calculatePawnAttacks
    rw [if_neg (by decide : ¬ ("Hyper" = "Classic"))]
    have h1 : (1 : ℚ) ≤ (3 : ℚ) ^ ((d : ℤ) - 1) :=
      one_le_zpow₀ (by norm_num) (by omega)
    linarith

/-- Witness for C7 (amended) at `d = 2`, `l = 3`. -/
theorem attacks_nonneg_witness :
    (2 : ℕ) ≤ 10 ∧ (1 : ℕ) ≤ 3 ∧ (3 : ℕ) ≤ 12 ∧
      (0 ≤ calculateKnightAttacks ((2 : ℕ) : ℤ) "Standard" ((3 : ℕ) : ℤ) ∧
        0 ≤ calculateKnightAttacks ((2 : ℕ) : ℤ) "Alternative" ((3 : ℕ) : ℤ) ∧
        0 ≤ calculateRookAttacks ((2 : ℕ) : ℤ) ((3 : ℕ) : ℤ) ∧
        0 ≤ calculateBishopAttacks ((2 : ℕ) : ℤ) "Hyper" ((3 : ℕ) : ℤ) ∧
        0 ≤ calculateQueenAttacks ((2 : ℕ) : ℤ) "Hyper" ((3 : ℕ) : ℤ) ∧
        0 ≤ calculateKingAttacks ((2 : ℕ) : ℤ) ((3 : ℕ) : ℤ) ∧
        (2 ≤ 3 → 0 ≤ calculateBishopAttacks ((2 : ℕ) : ℤ) "Classic" ((3 : ℕ) : ℤ) ∧
          0 ≤ calculateQueenAttacks ((2 : ℕ) : ℤ) "Classic" ((3 : ℕ) : ℤ)) ∧
        (1 ≤ 2 → 0 ≤ calculatePawnAttacks ((2 : ℕ) : ℤ) "Classic" ((3 : ℕ) : ℤ) ∧
          0 ≤ calculatePawnAttacks ((2 : ℕ) : ℤ) "Hyper" ((3 : ℕ) : ℤ))) :=
  ⟨by norm_num, by norm_num, by norm_num,
    attacks_nonneg 2 3 (by norm_num) (by norm_num) (by norm_num)⟩

/-- C8: the queen count is defined purely compositionally as rook plus bishop,
for every dimension, side length and diagonal mode. -/
theorem queen_eq_rook_add_bishop (d : ℤ) (diagonalMode : String) (l : ℤ) :
    calculateQueenAttacks d diagonalMode l =
      calculateRookAttacks d l + calculateBishopAttacks d diagonalMode l := rfl

/-- C9 (code bug): the claim matches the function's own JSDoc
(`@returns {object|null} ... or null if not found`), but `pieces[pieceName]`
falls through to the prototype chain: at the failing input
`pieceName = "toString"` the code returns the truthy inherited
`Object.prototype.toString` — neither a piece record nor `null`.  A
recognized name still yields its bound record, and a name that is neither a
piece nor an `Object.prototype` property does yield `null`. -/
theorem getPieceInfo_prototype_leak (diagonalMode knightMode : String) (l : ℤ) :
    getPieceInfo "toString" diagonalMode knightMode l = JSValue.inherited "toString" ∧
      getPieceInfo "toString" diagonalMode knightMode l ≠ JSValue.null ∧
      (∀ info, getPieceInfo "toString" diagonalMode knightMode l ≠ JSValue.piece info) ∧
      getPieceInfo "Knight" diagonalMode knightMode l =
        JSValue.piece ⟨fun d => calculateKnightAttacks d knightMode l,
          calculateKnightAttacks.getFormula knightMode⟩ ∧
      getPieceInfo "Unicorn" diagonalMode knightMode l = JSValue.null := by
  have hts : getPieceInfo "toString" diagonalMode knightMode l =
      JSValue.inherited "toString" := by
    unfold getPieceInfo
    rw [if_neg (by decide : ¬ ("toString" = "Knight")),
      if_neg (by decide : ¬ ("toString" = "Rook")),
      if_neg (by decide : ¬ ("toString" = "Bishop")),
      if_neg (by decide : ¬ ("toString" = "Queen")),
      if_neg (by decide : ¬ ("toString" = "King")),
      if_neg (by decide : ¬ ("toString" = "Pawn")),
      if_pos (by decide : "toString" ∈ objectPrototypeKeys)]
  refine ⟨hts, ?_, ?_, rfl, ?_⟩
  · rw [hts]
    exact fun h => JSValue.noConfusion h
  · intro info
    rw [hts]
    exact fun h => JSValue.noConfusion h
  · unfold getPieceInfo
    rw [if_neg (by decide : ¬ ("Unicorn" = "Knight")),
      if_neg (by decide : ¬ ("Unicorn" = "Rook")),
      if_neg (by decide : ¬ ("Unicorn" = "Bishop")),
      if_neg (by decide : ¬ ("Unicorn" = "Queen")),
      if_neg (by decide : ¬ ("Unicorn" = "King")),
      if_neg (by decide : ¬ ("Unicorn" = "Pawn")),
      if_neg (by decide : ¬ ("Unicorn" ∈ objectPrototypeKeys))]

/-- C10: the Hyper-mode bishop count the code computes never reads the side
length: any two side lengths give the same value, namely
`Σ r in [2, d], C(d,r) * (3 * 2^r + 1)`. -/
theorem bishopHyper_sideLength_independent (d : ℕ) (l1 l2 : ℤ) :
    calculateBishopAttacks (d : ℤ) "Hyper" l1 = calculateBishopAttacks (d : ℤ) "Hyper" l2 ∧
      calculateBishopAttacks (d : ℤ) "Hyper" l1 =
        ∑ r in Finset.Icc 2 d, (Nat.choose d r : ℚ) * (3 * (2 : ℚ) ^ r + 1) := by
  refine ⟨?_, bishopHyper_eq_sum d l1⟩
  rw [bishopHyper_eq_sum d l1, bishopHyper_eq_sum d l2]
